import Mathlib

/-!
Shallow embedding of `src/server.js` (Roblox Emote Discovery Service).

The embedding models the validated-asset cache, the batch refresh engine,
the upstream validator, the candidate registry, the HTTP handlers for
`GET /api/emotes` and `POST /api/submit-emote`, and the fixed-window rate
limiter.  Network I/O is abstracted as an oracle `String → FetchOutcome`
giving, for each asset id, the outcome of the upstream marketplace fetch.
Clock readings (`Date.now()`) are explicit `Int` parameters; JavaScript
number arithmetic on timestamps is exact integer arithmetic in the ranges
involved, so `Int` is a faithful carrier.
-/

/-- A seed/registry entry of `EMOTE_DATABASE`: `{ id, name, category }`. -/
structure CandidateEntry where
  id : String
  name : String
  category : String
deriving DecidableEq, Repr

/-- The enriched record built by `validateEmoteFromRoblox` (server.js:109-120).
In JavaScript the object leaves the validator without a `category` property;
the `category` field is assigned by the caller (`validated.category = ...`,
server.js:141 and 253) before the object is ever stored or exposed.  We model
the not-yet-assigned property as the empty string. -/
structure ValidatedAsset where
  id : String
  name : String
  description : String
  price : Int
  creatorName : String
  creatorType : String
  isForSale : Bool
  canResell : Bool
  assetType : Int
  lastUpdated : Int
  category : String
deriving DecidableEq, Repr

/-- `data.Creator` subobject of the upstream JSON. -/
structure CreatorInfo where
  cName : Option String
  cType : Option String
deriving DecidableEq, Repr

/-- The JSON body returned by the marketplace product-info endpoint, with the
fields the code reads (server.js:108-118).  `Option` marks fields that may be
absent (JavaScript `undefined`). -/
structure RobloxData where
  AssetTypeId : Int
  IsForSale : Bool
  IsLimited : Bool
  IsLimitedUnique : Bool
  Name : Option String
  Description : Option String
  PriceInRobux : Option Int
  Creator : Option CreatorInfo
deriving DecidableEq, Repr

/-- Outcome of one `fetch` to the marketplace: abort timeout, a network
error, or an HTTP response with a status code and parsed JSON body. -/
inductive FetchOutcome where
  | timeout
  | networkError
  | response (status : Int) (data : RobloxData)
deriving DecidableEq, Repr

/-- `response.ok`: status in the inclusive range 200..299. -/
def responseOk (status : Int) : Prop := 200 ≤ status ∧ status ≤ 299

instance (status : Int) : Decidable (responseOk status) := by
  unfold responseOk; infer_instance

/-- JavaScript `a || b` on an optional string: the default is taken when the
property is absent (`undefined`) or the empty string (both falsy). -/
def jsOrStr (o : Option String) (d : String) : String :=
  match o with
  | none => d
  | some s => if s = "" then d else s

/-- JavaScript `a || b` on an optional number: the default is taken when the
property is absent (`undefined`) or `0` (both falsy). -/
def jsOrInt (o : Option Int) (d : Int) : Int :=
  match o with
  | none => d
  | some n => if n = 0 then d else n

/-- `validateEmoteFromRoblox` (server.js:87-126).  `fetch` is abstracted by
the `outcome` argument; `now` stands for `new Date()` taken at enrichment
time.  A thrown error (timeout, network failure, or the `throw` on a non-ok
status) is caught by the surrounding `try` and turns into `null`; the
function also returns `null` when the acceptance test
`data.AssetTypeId === 61 && data.IsForSale` fails.  No error ever escapes. -/
def validateEmoteFromRoblox (emoteId : String) (outcome : FetchOutcome)
    (now : Int) : Option ValidatedAsset :=
  match outcome with
  | .timeout => none
  | .networkError => none
  | .response status data =>
    if responseOk status then
      if data.AssetTypeId = 61 ∧ data.IsForSale then
        some
          { id := emoteId
            name := jsOrStr data.Name "Unknown Emote"
            description := jsOrStr data.Description ""
            price := jsOrInt data.PriceInRobux 0
            creatorName := jsOrStr (data.Creator.bind CreatorInfo.cName) "Roblox"
            creatorType := jsOrStr (data.Creator.bind CreatorInfo.cType) "Group"
            isForSale := data.IsForSale
            canResell := data.IsForSale && !data.IsLimited && !data.IsLimitedUnique
            assetType := data.AssetTypeId
            lastUpdated := now
            category := "" }
      else none
    else none

/-- `validated.category = emoteEntry.category` (server.js:141, 253). -/
def withCategory (a : ValidatedAsset) (c : String) : ValidatedAsset :=
  { a with category := c }

/-- One batch of `refreshEmoteCache`'s loop body (server.js:135-148): map the
validator over the batch, keep the non-null results, and attach each entry's
category.  `Promise.all` preserves the positional order of its input array,
so the concurrent batch is a positional `filterMap`. -/
def processBatch (batch : List CandidateEntry) (oracle : String → FetchOutcome)
    (now : Int) : List ValidatedAsset :=
  batch.filterMap fun e =>
    (validateEmoteFromRoblox e.id (oracle e.id) now).map fun v =>
      withCategory v e.category

/-- The batching loop of `refreshEmoteCache` (server.js:134-154): slices of
size 5, processed in order; the inter-batch 1-second pacing delay has no
effect on the value computed and is elided. -/
def refreshLoop (entries : List CandidateEntry) (oracle : String → FetchOutcome)
    (now : Int) : List ValidatedAsset :=
  match entries with
  | [] => []
  | e :: es =>
    processBatch ((e :: es).take 5) oracle now ++
      refreshLoop ((e :: es).drop 5) oracle now
termination_by entries.length
decreasing_by
  simp only [List.length_drop, List.length_cons]
  omega

/-- `refreshEmoteCache` (server.js:128-161) as a pure function of the current
registry: returns the full replacement list `validEmotes`. -/
def refreshEmoteCache (db : List CandidateEntry) (oracle : String → FetchOutcome)
    (now : Int) : List ValidatedAsset :=
  refreshLoop db oracle now

/-- The seed candidate list `EMOTE_DATABASE` (server.js:56-80). -/
def EMOTE_DATABASE : List CandidateEntry :=
  [ { id := "507770677", name := "Salute", category := "Gesture" },
    { id := "507777268", name := "Point", category := "Gesture" },
    { id := "507770451", name := "Wave", category := "Gesture" },
    { id := "507771019", name := "Laugh", category := "Funny" },
    { id := "507771955", name := "Dance", category := "Dance" },
    { id := "507770818", name := "Cheer", category := "Action" },
    { id := "507766388", name := "Stadium", category := "Action" },
    { id := "507766951", name := "Confused", category := "Funny" },
    { id := "507766666", name := "Applaud", category := "Gesture" },
    { id := "507767015", name := "Sit", category := "Pose" },
    { id := "507769133", name := "Tilt", category := "Pose" },
    { id := "507770239", name := "Disagree", category := "Gesture" },
    { id := "507771378", name := "Hello", category := "Gesture" },
    { id := "4841397952", name := "Griddy", category := "Dance" },
    { id := "4265162094", name := "Zombie Walk", category := "Dance" },
    { id := "4049037604", name := "Orange Justice", category := "Dance" },
    { id := "4555782893", name := "Penguin", category := "Funny" },
    { id := "4555808220", name := "Chicken", category := "Funny" } ]

/-- The mutable module state of server.js relevant to the cache and registry:
`EMOTE_DATABASE` (mutable via push), `emoteCache`, `lastCacheUpdate`. -/
structure ServerState where
  emoteDatabase : List CandidateEntry
  emoteCache : List ValidatedAsset
  lastCacheUpdate : Int
deriving DecidableEq, Repr

/-- State at process start: seed registry, empty cache, `lastCacheUpdate = 0`
(server.js:83-84). -/
def initialState : ServerState :=
  { emoteDatabase := EMOTE_DATABASE, emoteCache := [], lastCacheUpdate := 0 }

/-- Batching is transparent: the loop over size-5 slices computes exactly the
positional `filterMap` of the whole registry. -/
theorem refreshLoop_eq_filterMap (entries : List CandidateEntry)
    (oracle : String → FetchOutcome) (now : Int) :
    refreshLoop entries oracle now = processBatch entries oracle now := by
  match entries with
  | [] => simp [refreshLoop, processBatch]
  | e :: es =>
    have ih := refreshLoop_eq_filterMap ((e :: es).drop 5) oracle now
    rw [refreshLoop, ih]
    unfold processBatch
    rw [← List.filterMap_append, List.take_append_drop]
termination_by entries.length
decreasing_by
  simp only [List.length_drop, List.length_cons]
  omega

/-- Decimal digit value of a character, `none` when not a digit. -/
def decDigitVal (c : Char) : Option Nat :=
  if '0' ≤ c ∧ c ≤ '9' then some (c.toNat - '0'.toNat) else none

/-- Hexadecimal digit value of a character, `none` when not a hex digit. -/
def hexDigitVal (c : Char) : Option Nat :=
  if '0' ≤ c ∧ c ≤ '9' then some (c.toNat - '0'.toNat)
  else if 'a' ≤ c ∧ c ≤ 'f' then some (c.toNat - 'a'.toNat + 10)
  else if 'A' ≤ c ∧ c ≤ 'F' then some (c.toNat - 'A'.toNat + 10)
  else none

/-- Accumulate the value of the longest run of valid digits. -/
def parseDigitsAux (dv : Char → Option Nat) (base : Nat) :
    List Char → Nat → Nat
  | [], acc => acc
  | c :: cs, acc =>
    match dv c with
    | some d => parseDigitsAux dv base cs (acc * base + d)
    | none => acc

/-- Value of the longest leading run of valid digits; `none` ("NaN") when the
first character is not a valid digit. -/
def parseDigits (dv : Char → Option Nat) (base : Nat) (cs : List Char) :
    Option Nat :=
  match cs with
  | [] => none
  | c :: _ =>
    match dv c with
    | none => none
    | some _ => some (parseDigitsAux dv base cs 0)

/-- JavaScript whitespace stripped by `parseInt` (the common characters). -/
def isJsSpace (c : Char) : Bool :=
  c = ' ' || c = '\t' || c = '\n' || c = '\r'

/-- JavaScript `parseInt(s)` with the default radix: skip leading whitespace,
optional sign, a `0x`/`0X` marker switches to base 16, then the longest run
of digits; `none` models `NaN`. -/
def jsParseInt (s : String) : Option Int :=
  let cs := s.data.dropWhile isJsSpace
  let sign : Int := match cs with
    | '-' :: _ => -1
    | _ => 1
  let digits := match cs with
    | '-' :: rest => rest
    | '+' :: rest => rest
    | _ => cs
  match digits with
  | '0' :: x :: rest =>
    if x = 'x' ∨ x = 'X' then (parseDigits hexDigitVal 16 rest).map (sign * ·)
    else (parseDigits decDigitVal 10 digits).map (sign * ·)
  | _ => (parseDigits decDigitVal 10 digits).map (sign * ·)

/-- JavaScript `xs.slice(0, e)`: `none` models a `NaN` end (converted to `+0`,
yielding the empty array); a negative end counts from the end of the array
(`max(length + e, 0)`); a non-negative end truncates (clamped to length). -/
def jsSliceTo (xs : List ValidatedAsset) (e : Option Int) : List ValidatedAsset :=
  match e with
  | none => []
  | some k =>
    if k < 0 then xs.take (max ((xs.length : Int) + k) 0).toNat
    else xs.take k.toNat

/-- The value bound to `limit` after the destructuring
`const { category, limit = 50, resellable_only } = req.query`
(server.js:179): the number `50` when the query parameter is absent,
otherwise the raw query string. -/
inductive JsLimit where
  | num (n : Int)
  | str (s : String)
deriving DecidableEq, Repr

/-- JavaScript truthiness of the `limit` binding: a number is truthy iff
nonzero, a string iff non-empty. -/
def limitTruthy : JsLimit → Bool
  | .num n => n != 0
  | .str s => s != ""

/-- `parseInt(limit)`: an integral number stringifies to its own decimal
numeral, so `parseInt` returns it unchanged; a string goes through
`jsParseInt`. -/
def limitParsed : JsLimit → Option Int
  | .num n => some n
  | .str s => jsParseInt s

/-- The query parameters of `GET /api/emotes` (server.js:179); each is absent
or the raw query string. -/
structure EmotesQuery where
  category : Option String
  limit : Option String
  resellable_only : Option String
deriving DecidableEq, Repr

/-- `limit = 50` destructuring default. -/
def effectiveLimit (q : EmotesQuery) : JsLimit :=
  match q.limit with
  | none => .num 50
  | some s => .str s

/-- Category filter (server.js:183-187): applied only when `category` is
truthy (present and non-empty); case-insensitive exact match. -/
def applyCategoryFilter (cache : List ValidatedAsset) (category : Option String) :
    List ValidatedAsset :=
  match category with
  | none => cache
  | some c =>
    if c = "" then cache
    else cache.filter fun a => a.category.toLower == c.toLower

/-- Resellable filter (server.js:189-191): applied only when the raw query
string is exactly `"true"`. -/
def applyResellableFilter (cache : List ValidatedAsset) (ro : Option String) :
    List ValidatedAsset :=
  if ro = some "true" then cache.filter (fun a => a.canResell) else cache

/-- Limit truncation (server.js:194-196): `if (limit)` then
`slice(0, parseInt(limit))`. -/
def applyLimitFilter (cache : List ValidatedAsset) (q : EmotesQuery) :
    List ValidatedAsset :=
  if limitTruthy (effectiveLimit q) then
    jsSliceTo cache (limitParsed (effectiveLimit q))
  else cache

/-- The filter pipeline of the `GET /api/emotes` handler
(server.js:179-196), in source order: category, then resellable, then limit. -/
def applyFilters (cache : List ValidatedAsset) (q : EmotesQuery) :
    List ValidatedAsset :=
  applyLimitFilter
    (applyResellableFilter (applyCategoryFilter cache q.category) q.resellable_only)
    q

/-- The JSON body returned by `GET /api/emotes` (server.js:200-207). -/
structure EmotesResponse where
  success : Bool
  emotes : List ValidatedAsset
  total : Nat
  cached : Nat
  lastUpdated : Int
deriving DecidableEq, Repr

/-- The `GET /api/emotes` handler (server.js:164-218): refresh when
`Date.now() - lastCacheUpdate > CACHE_DURATION || emoteCache.length === 0`
(CACHE_DURATION = 300000), then filter and respond. -/
def getEmotes (s : ServerState) (now : Int) (oracle : String → FetchOutcome)
    (q : EmotesQuery) : EmotesResponse × ServerState :=
  let s1 :=
    if now - s.lastCacheUpdate > 300000 ∨ s.emoteCache = [] then
      { s with emoteCache := refreshEmoteCache s.emoteDatabase oracle now
               lastCacheUpdate := now }
    else s
  let filtered := applyFilters s1.emoteCache q
  ({ success := true
     emotes := filtered
     total := filtered.length
     cached := s1.emoteCache.length
     lastUpdated := s1.lastCacheUpdate }, s1)

/-- Outcome of `POST /api/submit-emote` (server.js:221-277):
HTTP 400 on a malformed id; HTTP 200 with the registry entry when the id is
already in `EMOTE_DATABASE`; HTTP 200 with the validated emote on success;
HTTP 400 when validation yields nothing. -/
inductive SubmitResult where
  | invalidId
  | alreadyInDatabase (entry : CandidateEntry)
  | added (emote : ValidatedAsset)
  | notValid
deriving DecidableEq, Repr

/-- `emoteId && /^\d+$/.test(emoteId)` (server.js:225): non-empty and all
decimal digits. -/
def isValidEmoteId (emoteId : String) : Bool :=
  emoteId != "" && emoteId.data.all Char.isDigit

/-- The `POST /api/submit-emote` handler (server.js:221-277).  `category` is
the request-body category (defaulted to "Action" by the framework layer when
absent). -/
def submitEmote (s : ServerState) (emoteId category : String)
    (oracle : String → FetchOutcome) (now : Int) : SubmitResult × ServerState :=
  if !isValidEmoteId emoteId then (.invalidId, s)
  else
    match s.emoteDatabase.find? (fun e => e.id == emoteId) with
    | some e => (.alreadyInDatabase e, s)
    | none =>
      match validateEmoteFromRoblox emoteId (oracle emoteId) now with
      | some v =>
        let entry : CandidateEntry :=
          { id := emoteId, name := v.name, category := category }
        let validated := withCategory v category
        (.added validated,
          { s with emoteDatabase := s.emoteDatabase ++ [entry]
                   emoteCache := s.emoteCache ++ [validated] })
      | none => (.notValid, s)

/-- Per-client entry of `rateLimitMap` (server.js:34): `{ count, resetTime }`. -/
structure RLEntry where
  count : Nat
  resetTime : Int
deriving DecidableEq, Repr

/-- One admission check of `rateLimit` (server.js:29-51) for a single client:
given the client's current map entry (or `none` when absent) and `Date.now()`,
returns whether the request is admitted and the client's new entry.
RATE_LIMIT = 100, RATE_WINDOW = 60000. -/
def rateLimit (entry : Option RLEntry) (now : Int) : Bool × RLEntry :=
  match entry with
  | none => (true, { count := 1, resetTime := now + 60000 })
  | some u =>
    if now > u.resetTime then (true, { count := 1, resetTime := now + 60000 })
    else if u.count ≥ 100 then (false, u)
    else (true, { u with count := u.count + 1 })

/-- A sequence of admission checks for one client at the given times,
threading the map entry. -/
def runChecks : Option RLEntry → List Int → List Bool × Option RLEntry
  | u, [] => ([], u)
  | u, t :: ts =>
    let r := rateLimit u t
    let rest := runChecks (some r.2) ts
    (r.1 :: rest.1, rest.2)

/-- Phase of one in-flight `GET /api/emotes` request, at the granularity of
the handler's suspension points: `ready` = about to run the staleness check
(server.js:174); `refreshing` = inside `await refreshEmoteCache()` (the
refresh body suspends at its first upstream `fetch`, before it reassigns
`emoteCache`/`lastCacheUpdate`); `responded` = past the refresh step. -/
inductive TaskPhase where
  | ready
  | refreshing
  | responded
deriving DecidableEq, Repr

/-- Shared module state plus the phases of the concurrently in-flight
request-handler tasks, and a counter of started Batch Refresh Engine
passes. -/
structure ConcState where
  lastCacheUpdate : Int
  emoteCache : List ValidatedAsset
  startedRefreshes : Nat
  tasks : List TaskPhase
deriving DecidableEq, Repr

/-- Interleaving semantics of concurrent `GET /api/emotes` handlers on the
single-threaded event loop.  The staleness check and the *start* of
`refreshEmoteCache` happen atomically (the code from server.js:174 to the
first `await` inside the refresh runs synchronously); the *completion* of a
refresh (the assignments at server.js:156-157) is a separate later step, so
another task's staleness check can be scheduled in between. -/
inductive ConcStep (db : List CandidateEntry) (oracle : String → FetchOutcome)
    (now : Int) : ConcState → ConcState → Prop where
  | checkStale (s : ConcState) (i : Nat)
      (hi : s.tasks.get? i = some .ready)
      (hstale : now - s.lastCacheUpdate > 300000 ∨ s.emoteCache = []) :
      ConcStep db oracle now s
        { s with tasks := s.tasks.set i .refreshing
                 startedRefreshes := s.startedRefreshes + 1 }
  | checkFresh (s : ConcState) (i : Nat)
      (hi : s.tasks.get? i = some .ready)
      (hfresh : ¬(now - s.lastCacheUpdate > 300000 ∨ s.emoteCache = [])) :
      ConcStep db oracle now s { s with tasks := s.tasks.set i .responded }
  | finishRefresh (s : ConcState) (i : Nat)
      (hi : s.tasks.get? i = some .refreshing) :
      ConcStep db oracle now s
        { s with emoteCache := refreshEmoteCache db oracle now
                 lastCacheUpdate := now
                 tasks := s.tasks.set i .responded }

/-- Operations that mutate the registry/cache state over the server's
lifetime: the startup refresh (server.js:317), a `GET /api/emotes`, and a
`POST /api/submit-emote`. -/
inductive ServerOp : ServerState → ServerState → Prop where
  | startupRefresh (s : ServerState) (oracle : String → FetchOutcome) (now : Int) :
      ServerOp s
        { s with emoteCache := refreshEmoteCache s.emoteDatabase oracle now
                 lastCacheUpdate := now }
  | get (s : ServerState) (now : Int) (oracle : String → FetchOutcome)
      (q : EmotesQuery) : ServerOp s (getEmotes s now oracle q).2
  | submit (s : ServerState) (emoteId category : String)
      (oracle : String → FetchOutcome) (now : Int) :
      ServerOp s (submitEmote s emoteId category oracle now).2

/-- Helper: membership in the refresh output, characterized through the
originating registry entry and the validator's verdict. -/
theorem mem_refreshEmoteCache_iff (db : List CandidateEntry)
    (oracle : String → FetchOutcome) (now : Int) (a : ValidatedAsset) :
    a ∈ refreshEmoteCache db oracle now ↔
      ∃ e ∈ db, ∃ v, validateEmoteFromRoblox e.id (oracle e.id) now = some v ∧
        a = withCategory v e.category := by
  rw [refreshEmoteCache, refreshLoop_eq_filterMap]
  simp only [processBatch, List.mem_filterMap, Option.map_eq_some']
  constructor
  · rintro ⟨e, he, v, hv, rfl⟩
    exact ⟨e, he, v, hv, rfl⟩
  · rintro ⟨e, he, v, hv, rfl⟩
    exact ⟨e, he, v, hv, rfl⟩

/-- Helper: any asset the validator returns carries the queried id, has
`isForSale = true`, and its `canResell` implies `isForSale`. -/
theorem validateEmoteFromRoblox_some_fields (emoteId : String)
    (outcome : FetchOutcome) (now : Int) (a : ValidatedAsset)
    (h : validateEmoteFromRoblox emoteId outcome now = some a) :
    a.id = emoteId ∧ a.isForSale = true ∧
      (a.canResell = true → a.isForSale = true) := by
  cases outcome with
  | timeout => simp [validateEmoteFromRoblox] at h
  | networkError => simp [validateEmoteFromRoblox] at h
  | response status data =>
    by_cases hok : responseOk status
    · by_cases hacc : data.AssetTypeId = 61 ∧ data.IsForSale
      · simp only [validateEmoteFromRoblox, if_pos hok, if_pos hacc,
          Option.some.injEq] at h
        subst h
        exact ⟨rfl, hacc.2, fun _ => hacc.2⟩
      · simp [validateEmoteFromRoblox, if_pos hok, if_neg hacc] at h
    · simp [validateEmoteFromRoblox, if_neg hok] at h

/-- C3: `refreshEmoteCache` returns exactly the validator-accepted
candidates, each carrying its originating entry's category; candidates whose
validation result is absent are excluded from the snapshot. -/
theorem refresh_returns_exactly_accepted_candidates (db : List CandidateEntry)
    (oracle : String → FetchOutcome) (now : Int) (a : ValidatedAsset) :
    a ∈ refreshEmoteCache db oracle now ↔
      ∃ e ∈ db, ∃ v, validateEmoteFromRoblox e.id (oracle e.id) now = some v ∧
        a = withCategory v e.category :=
  mem_refreshEmoteCache_iff db oracle now a

/-- C7: the validator yields an enriched record exactly when the upstream
response is 2xx, declares asset type 61 (emote animation) and is for sale;
timeouts, network errors and non-2xx responses all degrade to `none` (the
function is total — no error propagates to the caller). -/
theorem validator_accepts_iff_ok_emote_for_sale (emoteId : String) (now : Int) :
    (validateEmoteFromRoblox emoteId .timeout now = none) ∧
    (validateEmoteFromRoblox emoteId .networkError now = none) ∧
    (∀ (status : Int) (data : RobloxData), ¬responseOk status →
        validateEmoteFromRoblox emoteId (.response status data) now = none) ∧
    (∀ (status : Int) (data : RobloxData),
        (∃ a, validateEmoteFromRoblox emoteId (.response status data) now = some a) ↔
          responseOk status ∧ data.AssetTypeId = 61 ∧ data.IsForSale = true) := by
  refine ⟨rfl, rfl, ?_, ?_⟩
  · intro status data hok
    simp [validateEmoteFromRoblox, if_neg hok]
  · intro status data
    constructor
    · rintro ⟨a, ha⟩
      by_cases hok : responseOk status
      · by_cases hacc : data.AssetTypeId = 61 ∧ data.IsForSale
        · exact ⟨hok, hacc.1, hacc.2⟩
        · simp [validateEmoteFromRoblox, if_pos hok, if_neg hacc] at ha
      · simp [validateEmoteFromRoblox, if_neg hok] at ha
    · rintro ⟨hok, h61, hsale⟩
      simp only [validateEmoteFromRoblox, if_pos hok, if_pos (And.intro h61 hsale)]
      exact ⟨_, rfl⟩

/-- Sample upstream payload used by concrete instantiations below. -/
def sampleData : RobloxData :=
  { AssetTypeId := 61, IsForSale := true, IsLimited := false,
    IsLimitedUnique := false, Name := none, Description := none,
    PriceInRobux := none, Creator := none }

/-- Witness for C7 at concrete inputs: a 500 response degrades to `none`. -/
theorem validator_accepts_iff_ok_emote_for_sale_witness :
    ¬responseOk 500 ∧
      validateEmoteFromRoblox "1" (.response 500 sampleData) 0 = none :=
  ⟨by decide,
    (validator_accepts_iff_ok_emote_for_sale "1" 0).2.2.1 500 sampleData (by decide)⟩

/-- C1: a `GET /api/emotes` performs a full refresh (replacing the snapshot
and stamping `lastCacheUpdate := now`) before computing the response exactly
when `now - lastCacheUpdate > 300000` or the snapshot is empty; otherwise it
answers from the existing snapshot and leaves the state untouched. -/
theorem getEmotes_refreshes_iff_stale (s : ServerState) (now : Int)
    (oracle : String → FetchOutcome) (q : EmotesQuery) :
    ((now - s.lastCacheUpdate > 300000 ∨ s.emoteCache = []) →
        getEmotes s now oracle q =
          ({ success := true
             emotes := applyFilters (refreshEmoteCache s.emoteDatabase oracle now) q
             total := (applyFilters (refreshEmoteCache s.emoteDatabase oracle now) q).length
             cached := (refreshEmoteCache s.emoteDatabase oracle now).length
             lastUpdated := now },
           { s with emoteCache := refreshEmoteCache s.emoteDatabase oracle now
                    lastCacheUpdate := now })) ∧
    (¬(now - s.lastCacheUpdate > 300000 ∨ s.emoteCache = []) →
        getEmotes s now oracle q =
          ({ success := true
             emotes := applyFilters s.emoteCache q
             total := (applyFilters s.emoteCache q).length
             cached := s.emoteCache.length
             lastUpdated := s.lastCacheUpdate }, s)) := by
  constructor
  · intro h
    simp only [getEmotes, if_pos h]
  · intro h
    simp only [getEmotes, if_neg h]

/-- Witness for C1: at startup (empty cache) a query at time 400000 refreshes
and stamps the state; with a fresh non-empty cache it does not. -/
theorem getEmotes_refreshes_iff_stale_witness :
    ((400000 : Int) - initialState.lastCacheUpdate > 300000 ∨
        initialState.emoteCache = []) ∧
      (getEmotes initialState 400000 (fun _ => .timeout)
          { category := none, limit := none, resellable_only := none }).2 =
        { initialState with
            emoteCache :=
              refreshEmoteCache initialState.emoteDatabase (fun _ => .timeout) 400000
            lastCacheUpdate := 400000 } := by
  have h := (getEmotes_refreshes_iff_stale initialState 400000 (fun _ => .timeout)
      { category := none, limit := none, resellable_only := none }).1
      (Or.inr rfl)
  exact ⟨Or.inr rfl, by rw [h]⟩

/-- C10: a non-empty `limit` query string that `parseInt` cannot parse (NaN)
makes the returned emote list empty — `slice(0, NaN)` truncates to nothing —
instead of falling back to the default limit of 50. -/
theorem nan_limit_yields_empty_list (s : ServerState) (now : Int)
    (oracle : String → FetchOutcome) (cat ro : Option String) (ls : String)
    (hne : ls ≠ "") (hnan : jsParseInt ls = none) :
    (getEmotes s now oracle
        { category := cat, limit := some ls, resellable_only := ro }).1.emotes = [] := by
  have key : ∀ cache : List ValidatedAsset,
      applyFilters cache { category := cat, limit := some ls, resellable_only := ro } = [] := by
    intro cache
    have ht : limitTruthy (JsLimit.str ls) = true := by
      simp [limitTruthy, hne]
    simp [applyFilters, applyLimitFilter, effectiveLimit, ht, limitParsed, hnan, jsSliceTo]
  by_cases h : now - s.lastCacheUpdate > 300000 ∨ s.emoteCache = []
  · simp only [getEmotes, if_pos h]
    exact key _
  · simp only [getEmotes, if_neg h]
    exact key _

/-- Witness for C10: `limit=abc` yields an empty list on a state whose cache
holds a validated asset. -/
theorem nan_limit_yields_empty_list_witness :
    (("abc" : String) ≠ "" ∧ jsParseInt "abc" = none) ∧
      (getEmotes initialState 0 (fun _ => .timeout)
          { category := none, limit := some "abc", resellable_only := none }).1.emotes = [] :=
  ⟨⟨by decide, by decide⟩,
    nan_limit_yields_empty_list initialState 0 (fun _ => .timeout) none none "abc"
      (by decide) (by decide)⟩

/-- A concrete validated asset for counterexample states. -/
def sampleAsset (i : String) : ValidatedAsset :=
  { id := i, name := "A", description := "", price := 0,
    creatorName := "Roblox", creatorType := "Group", isForSale := true,
    canResell := true, assetType := 61, lastUpdated := 0, category := "Dance" }

/-- A server state with a fresh two-asset snapshot (no refresh is due at
`now = 100`). -/
def twoAssetState : ServerState :=
  { emoteDatabase := EMOTE_DATABASE
    emoteCache := [sampleAsset "1", sampleAsset "2"]
    lastCacheUpdate := 100 }

/-- Counterexample to C5 as stated: with `limit=-1`, a negative limit, the
query on a two-asset snapshot returns one asset, not the empty list —
`slice(0, -1)` drops from the end of the array. -/
theorem negative_limit_counterexample :
    jsParseInt "-1" = some (-1) ∧ ((-1 : Int) < 0) ∧
      (getEmotes twoAssetState 100 (fun _ => .timeout)
          { category := none, limit := some "-1", resellable_only := none }).1.emotes =
        [sampleAsset "1"] ∧
      [sampleAsset "1"] ≠ ([] : List ValidatedAsset) := by
  refine ⟨by decide, by decide, ?_, by decide⟩
  decide

/-- C5 (amended): filters are applied in the order category (case-insensitive
exact match), then resellable-only, then truncation to `limit`; a limit of
`0` yields the empty list; a *negative* limit `k` behaves as JavaScript
`slice(0, k)` — it keeps all but the final `|k|` elements of the filtered
list (empty only when `|k|` is at least its length), not an error. -/
theorem filter_order_and_limit_semantics (s : ServerState) (now : Int)
    (oracle : String → FetchOutcome) (q : EmotesQuery) :
    ((getEmotes s now oracle q).1.emotes =
        applyLimitFilter
          (applyResellableFilter
            (applyCategoryFilter
              ((getEmotes s now oracle q).2.emoteCache) q.category)
            q.resellable_only)
          q) ∧
    (∀ (cache : List ValidatedAsset) (cat ro : Option String),
        applyFilters cache
          { category := cat, limit := some "0", resellable_only := ro } = []) ∧
    (∀ (cache : List ValidatedAsset) (cat ro : Option String) (ls : String) (k : Int),
        ls ≠ "" → jsParseInt ls = some k → k < 0 →
        applyFilters cache
            { category := cat, limit := some ls, resellable_only := ro } =
          (applyResellableFilter (applyCategoryFilter cache cat) ro).take
            (max (((applyResellableFilter (applyCategoryFilter cache cat) ro).length : Int) + k) 0).toNat) := by
  refine ⟨?_, ?_, ?_⟩
  · by_cases h : now - s.lastCacheUpdate > 300000 ∨ s.emoteCache = []
    · simp only [getEmotes, if_pos h]
      rfl
    · simp only [getEmotes, if_neg h]
      rfl
  · intro cache cat ro
    simp [applyFilters, applyLimitFilter, effectiveLimit, limitTruthy,
      limitParsed, jsParseInt, parseDigits, parseDigitsAux, decDigitVal,
      isJsSpace, jsSliceTo]
  · intro cache cat ro ls k hne hk hneg
    have ht : limitTruthy (JsLimit.str ls) = true := by
      simp [limitTruthy, hne]
    simp [applyFilters, applyLimitFilter, effectiveLimit, ht, limitParsed,
      hk, jsSliceTo, if_pos hneg]

/-- Witness for the amended C5: on the two-asset state, `limit=0` yields `[]`
and `limit=-1` keeps all but the last element. -/
theorem filter_order_and_limit_semantics_witness :
    (applyFilters [sampleAsset "1", sampleAsset "2"]
        { category := none, limit := some "0", resellable_only := none } = []) ∧
    (("-1" : String) ≠ "" ∧ jsParseInt "-1" = some (-1) ∧ ((-1 : Int) < 0) ∧
      applyFilters [sampleAsset "1", sampleAsset "2"]
          { category := none, limit := some "-1", resellable_only := none } =
        (applyResellableFilter
            (applyCategoryFilter [sampleAsset "1", sampleAsset "2"] none) none).take
          (max (((applyResellableFilter
              (applyCategoryFilter [sampleAsset "1", sampleAsset "2"] none) none).length : Int) + (-1)) 0).toNat) := by
  constructor
  · exact (filter_order_and_limit_semantics twoAssetState 100 (fun _ => .timeout)
      { category := none, limit := some "0", resellable_only := none }).2.1
      [sampleAsset "1", sampleAsset "2"] none none
  · exact ⟨by decide, by decide, by decide,
      (filter_order_and_limit_semantics twoAssetState 100 (fun _ => .timeout)
          { category := none, limit := some "-1", resellable_only := none }).2.2
        [sampleAsset "1", sampleAsset "2"] none none "-1" (-1)
        (by decide) (by decide) (by decide)⟩

/-- A validated asset corresponding to the seed entry `507770677` (Salute),
as a prior refresh could have produced it. -/
def saluteAsset : ValidatedAsset :=
  { id := "507770677", name := "Salute", description := "", price := 0,
    creatorName := "Roblox", creatorType := "Group", isForSale := true,
    canResell := true, assetType := 61, lastUpdated := 0, category := "Gesture" }

/-- A state whose snapshot holds the validated asset for the registered id
`507770677`. -/
def knownWithSnapshot : ServerState :=
  { emoteDatabase := EMOTE_DATABASE, emoteCache := [saluteAsset],
    lastCacheUpdate := 0 }

/-- The same registry, but an empty snapshot (the id is registered yet not in
the cache). -/
def knownNoSnapshot : ServerState :=
  { emoteDatabase := EMOTE_DATABASE, emoteCache := [], lastCacheUpdate := 0 }

/-- Counterexample to C4 as stated: submitting the registered id `507770677`
returns the registry's CandidateEntry, even though the snapshot holds the
corresponding ValidatedAsset — not that asset; and the result is identical
when the snapshot lacks the id, so no "known but unvalidated" indicator is
produced either. -/
theorem submit_known_id_counterexample :
    saluteAsset ∈ knownWithSnapshot.emoteCache ∧ saluteAsset.id = "507770677" ∧
      (submitEmote knownWithSnapshot "507770677" "Gesture" (fun _ => .timeout) 0).1 =
        .alreadyInDatabase
          { id := "507770677", name := "Salute", category := "Gesture" } ∧
      (submitEmote knownWithSnapshot "507770677" "Gesture" (fun _ => .timeout) 0).1 ≠
        .added saluteAsset ∧
      (submitEmote knownNoSnapshot "507770677" "Gesture" (fun _ => .timeout) 0).1 =
        (submitEmote knownWithSnapshot "507770677" "Gesture" (fun _ => .timeout) 0).1 := by
  refine ⟨by decide, by decide, by decide, by decide, by decide⟩

/-- C4 (amended): for a well-formed id already present in the Candidate
Registry, the submission returns the registry's CandidateEntry (the
"already in database" outcome) without consulting the snapshot, and the
whole state — registry and cache alike — is left unchanged (idempotent
submission). -/
theorem submit_known_id_returns_registry_entry (s : ServerState)
    (emoteId category : String) (oracle : String → FetchOutcome) (now : Int)
    (e : CandidateEntry) (hid : isValidEmoteId emoteId = true)
    (hfind : s.emoteDatabase.find? (fun x => x.id == emoteId) = some e) :
    submitEmote s emoteId category oracle now = (.alreadyInDatabase e, s) := by
  simp [submitEmote, hid, hfind]

/-- Witness for the amended C4 at the concrete state above. -/
theorem submit_known_id_returns_registry_entry_witness :
    (isValidEmoteId "507770677" = true ∧
      knownWithSnapshot.emoteDatabase.find? (fun x => x.id == "507770677") =
        some { id := "507770677", name := "Salute", category := "Gesture" }) ∧
      submitEmote knownWithSnapshot "507770677" "Gesture" (fun _ => .timeout) 0 =
        (.alreadyInDatabase
            { id := "507770677", name := "Salute", category := "Gesture" },
          knownWithSnapshot) :=
  ⟨⟨by decide, by decide⟩,
    submit_known_id_returns_registry_entry knownWithSnapshot "507770677"
      "Gesture" (fun _ => .timeout) 0
      { id := "507770677", name := "Salute", category := "Gesture" }
      (by decide) (by decide)⟩

/-- C8: a well-formed id not in the registry whose validation comes back
absent is rejected (HTTP 400 "Invalid emote ID or not for sale") and the
state — registry and snapshot — is exactly the input state. -/
theorem submit_failed_validation_is_atomic (s : ServerState)
    (emoteId category : String) (oracle : String → FetchOutcome) (now : Int)
    (hid : isValidEmoteId emoteId = true)
    (hnew : s.emoteDatabase.find? (fun x => x.id == emoteId) = none)
    (hval : validateEmoteFromRoblox emoteId (oracle emoteId) now = none) :
    submitEmote s emoteId category oracle now = (.notValid, s) := by
  simp [submitEmote, hid, hnew, hval]

/-- Witness for C8, matching the spec scenario: submit id `2` where the stub
returns `isForSale = false`; the submission is rejected and the state is
unchanged. -/
theorem submit_failed_validation_is_atomic_witness :
    (isValidEmoteId "2" = true ∧
      initialState.emoteDatabase.find? (fun x => x.id == "2") = none ∧
      validateEmoteFromRoblox "2"
          (.response 200 { sampleData with IsForSale := false }) 0 = none) ∧
      submitEmote initialState "2" "Action"
          (fun _ => .response 200 { sampleData with IsForSale := false }) 0 =
        (.notValid, initialState) :=
  ⟨⟨by decide, by decide, by decide⟩,
    submit_failed_validation_is_atomic initialState "2" "Action"
      (fun _ => .response 200 { sampleData with IsForSale := false }) 0
      (by decide) (by decide) (by decide)⟩

/-- Helper: a run of checks at one in-window instant `t ≤ R`, starting from
an entry with count `c` (1 ≤ c ≤ 100): the first `100 - c` are admitted, the
rest rejected, the count saturates at 100 and the boundary `R` is kept. -/
theorem runChecks_replicate_inWindow (R t : Int) (ht : t ≤ R) :
    ∀ (n c : Nat), 1 ≤ c → c ≤ 100 →
      runChecks (some { count := c, resetTime := R }) (List.replicate n t) =
        (List.replicate (min n (100 - c)) true ++
            List.replicate (n - (100 - c)) false,
          some { count := min (c + n) 100, resetTime := R }) := by
  intro n
  induction n with
  | zero =>
    intro c hc1 hc2
    have hm : min (c + 0) 100 = c := by omega
    have h1 : min 0 (100 - c) = 0 := by omega
    have h2 : (0 : Nat) - (100 - c) = 0 := by omega
    rw [List.replicate_zero]
    simp only [runChecks]
    rw [h1, h2, hm]
    simp
  | succ n ih =>
    intro c hc1 hc2
    have hnr : ¬ t > R := by omega
    rw [List.replicate_succ]
    by_cases hfull : 100 ≤ c
    · have hc100 : c = 100 := by omega
      subst hc100
      simp only [runChecks, rateLimit, if_neg hnr, if_pos hfull]
      rw [ih 100 (by omega) (by omega)]
      have h0 : min n (100 - 100) = 0 := by omega
      have h1 : min (n + 1) (100 - 100) = 0 := by omega
      have h2 : min (100 + n) 100 = min (100 + (n + 1)) 100 := by omega
      simp [h0, h1, h2, List.replicate_succ]
    · simp only [runChecks, rateLimit, if_neg hnr, if_neg hfull]
      rw [ih (c + 1) (by omega) (by omega)]
      have ha : min (n + 1) (100 - c) = min n (100 - (c + 1)) + 1 := by omega
      have hb : (n + 1) - (100 - c) = n - (100 - (c + 1)) := by omega
      have hm : min (c + (n + 1)) 100 = min (c + 1 + n) 100 := by omega
      simp [ha, hb, hm, List.replicate_succ]

/-- C6: fixed-window admission.  A first check (absent entry) is admitted
with count 1 and boundary `now + 60000`; a check after the window expired
(`now > resetTime`) likewise resets; an in-window check with count ≥ 100 is
rejected leaving count and boundary untouched; and a run of `n` checks from
a fresh client within one window admits exactly the first 100, rejects the
rest, and the final entry keeps the original boundary with count capped at
100. -/
theorem rateLimit_fixed_window :
    (∀ t : Int, rateLimit none t = (true, { count := 1, resetTime := t + 60000 })) ∧
    (∀ (u : RLEntry) (t : Int), t > u.resetTime →
        rateLimit (some u) t = (true, { count := 1, resetTime := t + 60000 })) ∧
    (∀ (u : RLEntry) (t : Int), t ≤ u.resetTime → 100 ≤ u.count →
        rateLimit (some u) t = (false, u)) ∧
    (∀ (n : Nat) (t : Int),
        (runChecks none (List.replicate n t)).1 =
          List.replicate (min n 100) true ++ List.replicate (n - 100) false) ∧
    (∀ (n : Nat) (t : Int), 1 ≤ n →
        (runChecks none (List.replicate n t)).2 =
          some { count := min n 100, resetTime := t + 60000 }) := by
  have hstep : ∀ (n : Nat) (t : Int),
      runChecks none (List.replicate (n + 1) t) =
        ((true :: (List.replicate (min n 99) true ++ List.replicate (n - 99) false)),
          some { count := min (1 + n) 100, resetTime := t + 60000 }) := by
    intro n t
    rw [List.replicate_succ]
    simp only [runChecks, rateLimit]
    rw [runChecks_replicate_inWindow (t + 60000) t (by omega) n 1 (by omega) (by omega)]
  refine ⟨fun t => rfl, ?_, ?_, ?_, ?_⟩
  · intro u t h
    simp [rateLimit, if_pos h]
  · intro u t h1 h2
    have hnr : ¬ t > u.resetTime := by omega
    simp [rateLimit, if_neg hnr, if_pos h2]
  · intro n t
    cases n with
    | zero => simp [runChecks]
    | succ n =>
      rw [hstep n t]
      have ha : min (n + 1) 100 = min n 99 + 1 := by omega
      have hb : (n + 1) - 100 = n - 99 := by omega
      simp [ha, hb, List.replicate_succ]
  · intro n t hn
    cases n with
    | zero => omega
    | succ n =>
      rw [hstep n t]
      have : min (1 + n) 100 = min (n + 1) 100 := by omega
      simp [this]

/-- Witness for C6 at concrete inputs: the first check from a fresh client at
time 0 is admitted with boundary 60000; an in-window check with count 100 is
rejected unchanged; five checks within one window are all admitted with the
final count 5 and the original boundary. -/
theorem rateLimit_fixed_window_witness :
    rateLimit none 0 = (true, { count := 1, resetTime := 60000 }) ∧
    (((0 : Int) ≤ (60000 : Int)) ∧ ((100 : Nat) ≤ (100 : Nat)) ∧
      rateLimit (some { count := 100, resetTime := 60000 }) 0 =
        (false, { count := 100, resetTime := 60000 })) ∧
    ((1 : Nat) ≤ (5 : Nat) ∧
      (runChecks none (List.replicate 5 (0 : Int))).2 =
        some { count := min 5 100, resetTime := 0 + 60000 }) := by
  refine ⟨?_, ⟨by decide, by decide, ?_⟩, ⟨by decide, ?_⟩⟩
  · exact rateLimit_fixed_window.1 0
  · exact rateLimit_fixed_window.2.2.1 { count := 100, resetTime := 60000 } 0
      (by decide) (by decide)
  · exact rateLimit_fixed_window.2.2.2.2 5 0 (by decide)

/-- Helper: the state component of a `GET /api/emotes`. -/
theorem getEmotes_snd (s : ServerState) (now : Int)
    (oracle : String → FetchOutcome) (q : EmotesQuery) :
    (getEmotes s now oracle q).2 =
      if now - s.lastCacheUpdate > 300000 ∨ s.emoteCache = [] then
        { s with emoteCache := refreshEmoteCache s.emoteDatabase oracle now
                 lastCacheUpdate := now }
      else s := by
  by_cases h : now - s.lastCacheUpdate > 300000 ∨ s.emoteCache = []
  · simp only [getEmotes, if_pos h]
  · simp only [getEmotes, if_neg h]

/-- Helper: the state component of a `POST /api/submit-emote` is either the
input state or the input state with the new entry appended to the registry
and the categorized validated asset appended to the cache. -/
theorem submitEmote_snd_cases (s : ServerState) (emoteId category : String)
    (oracle : String → FetchOutcome) (now : Int) :
    (submitEmote s emoteId category oracle now).2 = s ∨
    ∃ v, validateEmoteFromRoblox emoteId (oracle emoteId) now = some v ∧
      (submitEmote s emoteId category oracle now).2 =
        { s with
            emoteDatabase := s.emoteDatabase ++
              [{ id := emoteId, name := v.name, category := category }]
            emoteCache := s.emoteCache ++ [withCategory v category] } := by
  cases hid : isValidEmoteId emoteId with
  | false => left; simp [submitEmote, hid]
  | true =>
    cases hfind : s.emoteDatabase.find? (fun x => x.id == emoteId) with
    | some e => left; simp [submitEmote, hid, hfind]
    | none =>
      cases hval : validateEmoteFromRoblox emoteId (oracle emoteId) now with
      | none => left; simp [submitEmote, hid, hfind, hval]
      | some v =>
        right
        exact ⟨v, rfl, by simp [submitEmote, hid, hfind, hval]⟩

/-- The C9 state invariant: every cached asset's id has a corresponding
registry entry, and a cached asset can be resellable only if it is for
sale. -/
def CacheInv (s : ServerState) : Prop :=
  ∀ a ∈ s.emoteCache,
    (∃ e ∈ s.emoteDatabase, e.id = a.id) ∧
      (a.canResell = true → a.isForSale = true)

/-- Helper: every asset produced by a refresh pass satisfies the invariant
clauses with respect to the registry the pass read. -/
theorem refresh_asset_inv (db : List CandidateEntry)
    (oracle : String → FetchOutcome) (now : Int) :
    ∀ a ∈ refreshEmoteCache db oracle now,
      (∃ e ∈ db, e.id = a.id) ∧ (a.canResell = true → a.isForSale = true) := by
  intro a ha
  rcases (mem_refreshEmoteCache_iff db oracle now a).1 ha with ⟨e, he, v, hv, rfl⟩
  rcases validateEmoteFromRoblox_some_fields _ _ _ _ hv with ⟨hid, hsale, _⟩
  refine ⟨⟨e, he, ?_⟩, fun _ => ?_⟩
  · simp [withCategory, hid]
  · simp [withCategory, hsale]

/-- C9: the invariant holds at startup, every operation (startup refresh,
query-triggered refresh, submission) preserves it, and — at construction —
the validator sets `canResell` exactly to
`IsForSale && !IsLimited && !IsLimitedUnique` of the upstream data. -/
theorem cache_registry_invariant :
    CacheInv initialState ∧
    (∀ s s2 : ServerState, CacheInv s → ServerOp s s2 → CacheInv s2) ∧
    (∀ (emoteId : String) (status : Int) (data : RobloxData) (now : Int)
        (a : ValidatedAsset),
        validateEmoteFromRoblox emoteId (.response status data) now = some a →
        a.canResell = (data.IsForSale && !data.IsLimited && !data.IsLimitedUnique)) := by
  refine ⟨?_, ?_, ?_⟩
  · intro a ha
    simp [initialState] at ha
  · intro s s2 hs hop
    cases hop with
    | startupRefresh oracle now =>
      intro a ha
      exact refresh_asset_inv s.emoteDatabase oracle now a ha
    | get now oracle q =>
      rw [getEmotes_snd]
      by_cases h : now - s.lastCacheUpdate > 300000 ∨ s.emoteCache = []
      · rw [if_pos h]
        intro a ha
        exact refresh_asset_inv s.emoteDatabase oracle now a ha
      · rw [if_neg h]
        exact hs
    | submit emoteId category oracle now =>
      rcases submitEmote_snd_cases s emoteId category oracle now with h | ⟨v, hv, h⟩
      · rw [h]; exact hs
      · rw [h]
        intro a ha
        rcases List.mem_append.1 ha with hmem | hnew
        · rcases hs a hmem with ⟨⟨e, he, heid⟩, himp⟩
          exact ⟨⟨e, List.mem_append_left _ he, heid⟩, himp⟩
        · rcases validateEmoteFromRoblox_some_fields _ _ _ _ hv with ⟨hid, hsale, _⟩
          have hae : a = withCategory v category := by simpa using hnew
          subst hae
          refine ⟨⟨{ id := emoteId, name := v.name, category := category },
              List.mem_append_right _ (by simp), ?_⟩, fun _ => ?_⟩
          · simp [withCategory, hid]
          · simp [withCategory, hsale]
  · intro emoteId status data now a ha
    by_cases hok : responseOk status
    · by_cases hacc : data.AssetTypeId = 61 ∧ data.IsForSale
      · simp only [validateEmoteFromRoblox, if_pos hok, if_pos hacc,
          Option.some.injEq] at ha
        subst ha
        rfl
      · simp [validateEmoteFromRoblox, if_pos hok, if_neg hacc] at ha
    · simp [validateEmoteFromRoblox, if_neg hok] at ha

/-- Witness for C9: the invariant holds at startup (evaluated) and is carried
across a concrete submission operation. -/
theorem cache_registry_invariant_witness :
    CacheInv (submitEmote initialState "2" "Action" (fun _ => .timeout) 0).2 :=
  cache_registry_invariant.2.1 initialState _
    (by intro a ha; simp [initialState] at ha)
    (ServerOp.submit initialState "2" "Action" (fun _ => .timeout) 0)

/-- The initial concurrent configuration: empty (hence stale) cache and two
`GET /api/emotes` requests in flight, both about to run the staleness
check. -/
def twoReadyState : ConcState :=
  { lastCacheUpdate := 0, emoteCache := [], startedRefreshes := 0,
    tasks := [.ready, .ready] }

/-- C2 fails on the code: there is no refresh-in-progress flag or mutex, so
when two concurrent requests both pass the staleness check before either
refresh completes, each starts its own Batch Refresh Engine pass — a state
with two started passes is reachable. -/
theorem concurrent_stale_reads_start_two_refreshes :
    ∃ s2 : ConcState,
      Relation.ReflTransGen
          (ConcStep EMOTE_DATABASE (fun _ => .timeout) 400000)
          twoReadyState s2 ∧
        s2.startedRefreshes = 2 := by
  refine ⟨_, Relation.ReflTransGen.head
      (ConcStep.checkStale twoReadyState 0 rfl (Or.inr rfl))
      (Relation.ReflTransGen.head
        (ConcStep.checkStale _ 1 rfl (Or.inr rfl))
        Relation.ReflTransGen.refl), rfl⟩
